import Mathlib

/-!
Verification of the VICEmergency feed integration
(custom_components/vicemergency_feed/geo_location.py).

The development shallowly embeds the in-repo glue code: Python attribute
values become an inductive PyVal with Python truthiness, the feed entry
record and the location-event entity become structures, and the methods
become pure functions on those structures.  Attributes that the Python
constructor may leave unset (only the publication-date field) are modelled
with Option at the attribute-store level, so that reading a never-assigned
attribute is an explicit error, as in Python.
-/

namespace VICEmergency

/-- A Python value as stored on entity and feed-entry attributes: the
constant None, a string, a boolean, or an integer.  These cover every value
the embedded code stores, compares or filters. -/
inductive PyVal where
  | none
  | str (s : String)
  | bool (b : Bool)
  | int (n : Int)
  deriving DecidableEq, Repr

/-- Python truthiness of a value: None is falsy, a string is truthy when
nonempty, a boolean is its own truth value, an integer is truthy when
nonzero. -/
def PyVal.truthy : PyVal → Bool
  | .none => false
  | .str s => !(s == "")
  | .bool _b => _b
  | .int n => !(n == 0)

/-- Python isinstance(value, bool). -/
def PyVal.isBool : PyVal → Bool
  | .bool _ => true
  | _ => false

/-- Python equality of a stored value against a string literal, as used by
the icon property: only a string compares equal to a string. -/
def pyEqStr : PyVal → String → Bool
  | .str s, t => s == t
  | _, _ => false

/-- A feed entry of the external feed manager, read-only to this code.
Fields category1 and location are kept as strings because the render pass
concatenates them; every other field is copied opaquely. -/
structure FeedEntry where
  category1 : String
  location : String
  distance_to_home : PyVal
  coordinate0 : PyVal
  coordinate1 : PyVal
  attribution : PyVal
  publication_date : PyVal
  category2 : PyVal
  description : PyVal
  etsa_id : PyVal
  source_organisation : PyVal
  resources : PyVal
  size : PyVal
  size_fmt : PyVal
  status : PyVal
  type : PyVal
  statewide : PyVal
  deriving DecidableEq, Repr

/-- The attribute store of a VICEmergencyLocationEvent entity.  Every field
assigned by the constructor is a plain PyVal; the publication-date field is
an Option because the constructor never assigns it, so the attribute may be
absent (reading it then raises AttributeError in Python). -/
structure EntityState where
  external_id : PyVal
  name : PyVal
  distance : PyVal
  latitude : PyVal
  longitude : PyVal
  attribution : PyVal
  category1 : PyVal
  category2 : PyVal
  description : PyVal
  id : PyVal
  sourceTitle : PyVal
  sourceOrg : PyVal
  resources : PyVal
  size : PyVal
  sizefmt : PyVal
  location : PyVal
  status : PyVal
  type : PyVal
  statewide : PyVal
  publication_date : Option PyVal
  deriving DecidableEq, Repr

/-- VICEmergencyLocationEvent.__init__: every display field is set to None;
the publication-date attribute is not assigned at all. -/
def initEntity (external_id : PyVal) : EntityState :=
  { external_id := external_id
    name := .none
    distance := .none
    latitude := .none
    longitude := .none
    attribution := .none
    category1 := .none
    category2 := .none
    description := .none
    id := .none
    sourceTitle := .none
    sourceOrg := .none
    resources := .none
    size := .none
    sizefmt := .none
    location := .none
    status := .none
    type := .none
    statewide := .none
    publication_date := Option.none }

/-- VICEmergencyLocationEvent._update_from_feed: copies the feed-entry
fields onto the entity.  Note that the source assigns feed_entry.etsa_id to
the external-id field, assigns nothing to the id and sourceTitle fields,
and assigns the location and description fields twice with the same
value. -/
def update_from_feed (s : EntityState) (e : FeedEntry) : EntityState :=
  { s with
    name := .str (e.category1 ++ " - " ++ e.location)
    distance := e.distance_to_home
    latitude := e.coordinate0
    longitude := e.coordinate1
    attribution := e.attribution
    publication_date := some e.publication_date
    location := .str e.location
    category1 := .str e.category1
    category2 := e.category2
    description := e.description
    external_id := e.etsa_id
    sourceOrg := e.source_organisation
    resources := e.resources
    size := e.size
    sizefmt := e.size_fmt
    status := e.status
    type := e.type
    statewide := e.statewide }

/-- The feed manager exposes its current entries as a mapping from external
identifier to entry; modelled as an association list with the dictionary
convention that keys are unique. -/
def entryKeys (entries : List (PyVal × FeedEntry)) : List PyVal :=
  entries.map Prod.fst

/-- VICEmergencyFeedEntityManager.get_entry: Python dict.get, returning the
value bound to the key if present and None otherwise. -/
def get_entry (entries : List (PyVal × FeedEntry)) (external_id : PyVal) :
    Option FeedEntry :=
  match entries.find? (fun p => decide (p.1 = external_id)) with
  | Option.none => Option.none
  | some p => some p.2

/-- VICEmergencyLocationEvent.async_update: look up the entity's own
external identifier in the feed manager and copy the entry if present;
otherwise leave every field untouched. -/
def async_update (entries : List (PyVal × FeedEntry)) (s : EntityState) :
    EntityState :=
  match get_entry entries s.external_id with
  | Option.none => s
  | some e => update_from_feed s e

/-- VICEmergencyLocationEvent.icon, the source if-chain on the status,
category1 and category2 fields, first match winning. -/
def iconOf (st c1 c2 : PyVal) : String :=
  if pyEqStr st ("Safe") || pyEqStr st ("Complete") then "mdi:map-marker-check"
  else if pyEqStr st ("Unknown") then "mdi:map-marker-question"
  else if pyEqStr c1 ("Rescue") && pyEqStr c2 ("Rescue Road Trap") then
    "mdi:car-emergency"
  else if pyEqStr c1 ("Fire") then
    (if pyEqStr st ("Under Control") then "mdi:fire" else "mdi:fire-alert")
  else if pyEqStr c1 ("Tree Down") then "mdi:tree"
  else if pyEqStr c1 ("Flooding") then "mdi:house-flood"
  else if pyEqStr st ("Warning") then "mdi:alert"
  else "mdi:alarm-light"

/-- The icon property of the entity reads the status, category1 and
category2 fields. -/
def EntityState.icon (s : EntityState) : String :=
  iconOf s.status s.category1 s.category2

/-- The eight-rule priority order of section 4.2 of the specification,
written from the words of the spec: rules are tried in order and the first
matching rule chooses the icon.  Rule labels map to the concrete icon
strings: resolved is mdi:map-marker-check, question is
mdi:map-marker-question, vehicle emergency is mdi:car-emergency, under
control is mdi:fire, fire alert is mdi:fire-alert, tree is mdi:tree, flood
is mdi:house-flood, alert is mdi:alert, generic alarm is
mdi:alarm-light. -/
def iconSpec (st c1 c2 : PyVal) : String :=
  if st = .str ("Safe") ∨ st = .str ("Complete") then "mdi:map-marker-check"
  else if st = .str ("Unknown") then "mdi:map-marker-question"
  else if c1 = .str ("Rescue") ∧ c2 = .str ("Rescue Road Trap") then
    "mdi:car-emergency"
  else if c1 = .str ("Fire") then
    (if st = .str ("Under Control") then "mdi:fire" else "mdi:fire-alert")
  else if c1 = .str ("Tree Down") then "mdi:tree"
  else if c1 = .str ("Flooding") then "mdi:house-flood"
  else if st = .str ("Warning") then "mdi:alert"
  else "mdi:alarm-light"

/-- Error raised when a Python attribute read finds no such attribute. -/
inductive AttrError where
  | missingAttr (attrName : String)
  deriving DecidableEq, Repr

/-- Python dict assignment d[k] = v: overwrite in place when the key is
present, append otherwise. -/
def dictInsert (d : List (String × PyVal)) (k : String) (v : PyVal) :
    List (String × PyVal) :=
  if d.any (fun p => p.1 == k) then
    d.map (fun p => if p.1 == k then (k, v) else p)
  else d ++ [(k, v)]

/-- Keys of a dictionary, in insertion order. -/
def dictKeys (d : List (String × PyVal)) : List String :=
  d.map Prod.fst

/-- The filter of device_state_attributes: a pair is kept when its value is
truthy or is a boolean. -/
def includePair (v : PyVal) : Bool :=
  v.truthy || v.isBool

/-- The ordered list of (attribute-name, field-value) pairs iterated by
device_state_attributes, exactly as in the source, duplicate entries for
location and description included.  The publication-date value is passed
separately because reading it can fail. -/
def attrTable (s : EntityState) (pd : PyVal) : List (String × PyVal) :=
  [("id", s.id),
   ("location", s.location),
   ("attribution", s.attribution),
   ("category1", s.category1),
   ("category2", s.category2),
   ("description", s.description),
   ("publication_date", pd),
   ("sourceTitle", s.sourceTitle),
   ("sourceOrg", s.sourceOrg),
   ("resources", s.resources),
   ("size", s.size),
   ("sizefmt", s.sizefmt),
   ("location", s.location),
   ("status", s.status),
   ("statewide", s.statewide),
   ("type", s.type),
   ("description", s.description)]

/-- Fold of the attribute table into a dictionary, keeping a pair only when
its value passes the truthy-or-boolean filter. -/
def buildAttrs (ps : List (String × PyVal)) : List (String × PyVal) :=
  ps.foldl (fun d p => if includePair p.2 then dictInsert d p.1 p.2 else d) []

/-- VICEmergencyLocationEvent.device_state_attributes: reading the
publication-date field raises AttributeError when the constructor ran but
no render pass ever assigned it; otherwise the attribute dictionary is
built from the table. -/
def device_state_attributes (s : EntityState) :
    Except AttrError (List (String × PyVal)) :=
  match s.publication_date with
  | Option.none => .error (.missingAttr ("_publication_date"))
  | some pd => .ok (buildAttrs (attrTable s pd))

/-- Whether an attribute-building result succeeded. -/
def resultOk (r : Except AttrError (List (String × PyVal))) : Bool :=
  match r with
  | .ok _ => true
  | .error _ => false

/-- Whether a successful attribute-building result contains the given key
bound to the given value. -/
def resultContains (r : Except AttrError (List (String × PyVal)))
    (k : String) (v : PyVal) : Bool :=
  match r with
  | .ok m => m.any (fun p => p.1 == k && p.2 == v)
  | .error _ => false

/-- Whether a successful attribute-building result contains the given
key. -/
def resultHasKey (r : Except AttrError (List (String × PyVal)))
    (k : String) : Bool :=
  match r with
  | .ok m => m.any (fun p => p.1 == k)
  | .error _ => false

/-- State of the feed entity manager relevant to start and stop: the stored
removal callback of the periodic timer, None until async_init registers
one; a registered callback is identified by a handle. -/
structure ManagerState where
  track_time_remove_callback : Option Nat
  deriving DecidableEq, Repr

/-- Observable effect of the stop operation: invoking the removal callback
with the given handle. -/
inductive StopEffect where
  | invokeRemoval (handle : Nat)
  deriving DecidableEq, Repr

/-- Calling the stored callback object: calling None raises TypeError,
calling a registered callback produces the removal effect. -/
def callStored : Option Nat → Except String (List StopEffect)
  | Option.none => .error ("TypeError: NoneType object is not callable")
  | some h => .ok [.invokeRemoval h]

/-- VICEmergencyFeedEntityManager.async_stop: the callback is called only
under the source's truthiness guard, so the never-started case returns
normally with the state unchanged and no effect. -/
def async_stop (m : ManagerState) :
    Except String (ManagerState × List StopEffect) :=
  if m.track_time_remove_callback.isSome then
    match callStored m.track_time_remove_callback with
    | .error e => .error e
    | .ok effs => .ok (m, effs)
  else .ok (m, [])

/-- The two per-entity dispatcher subscriptions. -/
inductive SubId where
  | delete
  | update
  deriving DecidableEq, Repr

/-- VICEmergencyLocationEvent.async_will_remove_from_hass: the delete
subscription release is called first and the update subscription release
second, with no exception guard between them.  The arguments give the
outcome of each release call; the result lists the subscriptions whose
release completed, together with the exception that escaped, if any. -/
def async_will_remove_from_hass
    (releaseDelete releaseUpdate : Except String Unit) :
    List SubId × Option String :=
  match releaseDelete with
  | .error e => ([], some e)
  | .ok _ =>
    match releaseUpdate with
    | .error e => ([SubId.delete], some e)
    | .ok _ => ([SubId.delete, SubId.update], Option.none)

/-- A concrete feed entry whose etsa-id field differs from the external
identifier an entity was constructed with. -/
def entryB : FeedEntry :=
  { category1 := "Fire"
    location := "Somewhere"
    distance_to_home := .int 5
    coordinate0 := .int 1
    coordinate1 := .int 2
    attribution := .str ("VICEmergency")
    publication_date := .str ("2024-01-01")
    category2 := .str ("Bushfire")
    description := .str ("desc")
    etsa_id := .str ("B")
    source_organisation := .str ("CFA")
    resources := .int 3
    size := .str ("small")
    size_fmt := .str ("SMALL")
    status := .str ("Going")
    type := .str ("incident")
    statewide := .bool false }

/-- A concrete feed entry with every field non-empty. -/
def fullEntry : FeedEntry :=
  { category1 := "Fire"
    location := "Melton"
    distance_to_home := .int 7
    coordinate0 := .int 1
    coordinate1 := .int 2
    attribution := .str ("VICEmergency")
    publication_date := .str ("2024-01-02")
    category2 := .str ("Bushfire")
    description := .str ("Grass fire")
    etsa_id := .str ("E123")
    source_organisation := .str ("CFA")
    resources := .int 4
    size := .str ("2 ha")
    size_fmt := .str ("Small")
    status := .str ("Going")
    type := .str ("incident")
    statewide := .bool true }

/-- A concrete feed entry whose status is the empty string and whose
statewide flag is the boolean False. -/
def entryEmptyStatus : FeedEntry :=
  { fullEntry with
    status := .str ("")
    statewide := .bool false }

/-- The entity state after one render pass copied entryEmptyStatus. -/
def stEmptyStatus : EntityState :=
  update_from_feed (initEntity (.str ("X"))) entryEmptyStatus

/-- C5: for every feed entry copied by the render pass, the composite name
equals category1, then the separator space-hyphen-space, then location. -/
theorem c5_composite_name (s : EntityState) (e : FeedEntry) :
    (update_from_feed s e).name = .str (e.category1 ++ " - " ++ e.location) :=
  rfl

/-- C7: when the render pass finds the entity's identifier absent from the
feed manager, every field of the entity is left unchanged. -/
theorem c7_absent_entry_keeps_state
    (entries : List (PyVal × FeedEntry)) (s : EntityState)
    (h : get_entry entries s.external_id = Option.none) :
    async_update entries s = s := by
  unfold async_update
  rw [h]

/-- Witness for C7 at the empty feed snapshot. -/
theorem c7_witness :
    get_entry [] (initEntity (.str ("Z"))).external_id = Option.none ∧
    async_update [] (initEntity (.str ("Z"))) = initEntity (.str ("Z")) :=
  ⟨rfl, c7_absent_entry_keeps_state [] (initEntity (.str ("Z"))) rfl⟩

/-- C9: stopping the manager when the periodic callback was never
registered returns normally with the state unchanged and no effect. -/
theorem c9_stop_before_start (m : ManagerState)
    (h : m.track_time_remove_callback = Option.none) :
    async_stop m = .ok (m, []) := by
  unfold async_stop
  rw [h]
  rfl

/-- Witness for C9 on the freshly constructed manager state. -/
theorem c9_witness :
    async_stop (ManagerState.mk Option.none) =
      .ok (ManagerState.mk Option.none, []) :=
  c9_stop_before_start (ManagerState.mk Option.none) rfl

/-- C10: on an entity that was constructed but never updated from a feed
entry, reading the device state attributes fails with an attribute-lookup
error on the publication-date field, which the constructor never
initializes. -/
theorem c10_attributes_fail_before_first_update (x : PyVal) :
    device_state_attributes (initEntity x) =
      .error (.missingAttr ("_publication_date")) :=
  rfl

/-- C2: evaluation at the failing input.  An entity constructed with
external identifier A, after one render pass over a feed entry whose
etsa-id field is B, carries external identifier B: the render pass
overwrites the identifier instead of leaving it unchanged. -/
theorem c2_external_id_overwritten :
    (initEntity (.str ("A"))).external_id = .str ("A") ∧
    (update_from_feed (initEntity (.str ("A"))) entryB).external_id
      = .str ("B") ∧
    PyVal.str ("B") ≠ PyVal.str ("A") :=
  ⟨rfl, rfl, by decide⟩

/-- C8 counterexample: when releasing the delete subscription raises, the
update subscription is not released, because the two release calls are
sequential with no guard. -/
theorem c8_counterexample :
    SubId.update ∉
      (async_will_remove_from_hass (.error ("boom")) (.ok ())).1 := by
  decide

/-- C8 amended: on removal the delete subscription release runs first and
the update subscription release second; when neither raises both
subscriptions are released, but when the delete release raises the update
subscription is not released. -/
theorem c8_amended :
    (async_will_remove_from_hass (.ok ()) (.ok ())).1
        = [SubId.delete, SubId.update] ∧
    ∀ (e : String) (ru : Except String Unit),
      (async_will_remove_from_hass (.error e) ru).1 = [] :=
  ⟨rfl, fun _ _ => rfl⟩

/-- The source icon chain agrees with the icon chosen by the priority rules
written from the spec, for all three field values. -/
theorem iconOf_eq_iconSpec (st c1 c2 : PyVal) :
    iconOf st c1 c2 = iconSpec st c1 c2 := by
  cases st <;> cases c1 <;> cases c2 <;>
    simp [iconOf, iconSpec, pyEqStr]

/-- C1: the icon property of an entity equals the icon chosen by the
eight-rule priority order of the spec on its status, category1 and
category2 fields, and in particular status Safe with category1 Fire gives
the resolved icon whatever category2 is. -/
theorem c1_icon_priority :
    (∀ s : EntityState,
      EntityState.icon s = iconSpec s.status s.category1 s.category2) ∧
    (∀ c2 : PyVal,
      iconOf (.str ("Safe")) (.str ("Fire")) c2 = "mdi:map-marker-check") :=
  ⟨fun s => iconOf_eq_iconSpec s.status s.category1 s.category2,
   fun _ => rfl⟩

/-- C3: evaluation at the failing input.  After a render pass over a feed
entry with every field non-empty, the attribute dictionary is produced but
is missing the id and sourceTitle keys, while the twelve other listed keys
are present: the render pass never assigns the id and sourceTitle fields,
so their None values are dropped by the truthiness filter. -/
theorem c3_id_and_sourceTitle_missing :
    resultOk (device_state_attributes
        (update_from_feed (initEntity (.str ("E123"))) fullEntry)) = true ∧
    resultHasKey (device_state_attributes
        (update_from_feed (initEntity (.str ("E123"))) fullEntry)) "id"
      = false ∧
    resultHasKey (device_state_attributes
        (update_from_feed (initEntity (.str ("E123"))) fullEntry))
        "sourceTitle" = false ∧
    (["location", "category1", "category2", "description",
      "publication_date", "sourceOrg", "resources", "size", "sizefmt",
      "status", "statewide", "type"].all (fun k =>
        resultHasKey (device_state_attributes
          (update_from_feed (initEntity (.str ("E123"))) fullEntry)) k))
      = true := by
  decide

/-- Keys after a dictionary assignment: the assigned key joins the key set,
everything else is untouched. -/
theorem mem_dictKeys_dictInsert (d : List (String × PyVal)) (k : String)
    (v : PyVal) (a : String) :
    a ∈ dictKeys (dictInsert d k v) ↔ a ∈ dictKeys d ∨ a = k := by
  unfold dictInsert dictKeys
  by_cases h : d.any (fun p => p.1 == k)
  · rw [if_pos h]
    have hkeys : (d.map (fun p => if p.1 == k then (k, v) else p)).map
        Prod.fst = d.map Prod.fst := by
      rw [List.map_map]
      apply List.map_congr_left
      intro p _
      by_cases hp : p.1 == k
      · simp only [Function.comp_apply, if_pos hp]
        exact (eq_of_beq hp).symm
      · simp only [Function.comp_apply, if_neg hp]
    rw [hkeys]
    constructor
    · exact Or.inl
    · rintro (ha | rfl)
      · exact ha
      · rcases List.any_eq_true.mp h with ⟨p, hp, hpk⟩
        exact List.mem_map.mpr ⟨p, hp, eq_of_beq hpk⟩
  · rw [if_neg h]
    simp

/-- The single step of the attribute fold. -/
def attrStep (d : List (String × PyVal)) (p : String × PyVal) :
    List (String × PyVal) :=
  if includePair p.2 then dictInsert d p.1 p.2 else d

/-- Keys of the attribute fold over any prefix dictionary: a key is present
exactly when it was already present or some pair of the table carries it
with a value passing the truthy-or-boolean filter. -/
theorem mem_dictKeys_foldl_attrStep (ps : List (String × PyVal)) :
    ∀ (d : List (String × PyVal)) (a : String),
      a ∈ dictKeys (ps.foldl attrStep d) ↔
        a ∈ dictKeys d ∨ ∃ v, (a, v) ∈ ps ∧ includePair v = true := by
  induction ps with
  | nil => simp
  | cons p tl ih =>
    intro d a
    obtain ⟨k0, v0⟩ := p
    rw [List.foldl_cons, ih]
    unfold attrStep
    by_cases h : includePair v0
    · rw [if_pos h, mem_dictKeys_dictInsert]
      simp only [List.mem_cons, Prod.mk.injEq]
      constructor
      · rintro ((ha | rfl) | ⟨v, hv, hincl⟩)
        · exact Or.inl ha
        · exact Or.inr ⟨v0, Or.inl ⟨rfl, rfl⟩, h⟩
        · exact Or.inr ⟨v, Or.inr hv, hincl⟩
      · rintro (ha | ⟨v, (⟨rfl, rfl⟩ | hv), hincl⟩)
        · exact Or.inl (Or.inl ha)
        · exact Or.inl (Or.inr rfl)
        · exact Or.inr ⟨v, hv, hincl⟩
    · rw [if_neg h]
      simp only [List.mem_cons, Prod.mk.injEq]
      constructor
      · rintro (ha | ⟨v, hv, hincl⟩)
        · exact Or.inl ha
        · exact Or.inr ⟨v, Or.inr hv, hincl⟩
      · rintro (ha | ⟨v, (⟨rfl, rfl⟩ | hv), hincl⟩)
        · exact Or.inl ha
        · exact absurd hincl h
        · exact Or.inr ⟨v, hv, hincl⟩

/-- C4: the attribute mapping contains a key exactly when some pair of the
source's ordered table carries that key with a value that is truthy or is a
boolean; in the concrete scenario with empty status and statewide False,
the mapping keeps the pair statewide-False and omits the status key. -/
theorem c4_truthy_or_bool_filter :
    (∀ (s : EntityState) (pd : PyVal) (m : List (String × PyVal)),
        s.publication_date = some pd →
        device_state_attributes s = .ok m →
        ∀ k, k ∈ dictKeys m ↔
          ∃ v, (k, v) ∈ attrTable s pd ∧ includePair v = true) ∧
    resultContains (device_state_attributes stEmptyStatus)
        "statewide" (.bool false) = true ∧
    resultHasKey (device_state_attributes stEmptyStatus) "status"
      = false := by
  refine ⟨?_, by decide, by decide⟩
  intro s pd m hpd hok k
  unfold device_state_attributes at hok
  rw [hpd] at hok
  have hm : m = buildAttrs (attrTable s pd) := by
    cases hok
    rfl
  subst hm
  unfold buildAttrs
  rw [show (fun (d : List (String × PyVal)) (p : String × PyVal) =>
        if includePair p.2 then dictInsert d p.1 p.2 else d) = attrStep
      from rfl]
  rw [mem_dictKeys_foldl_attrStep]
  simp [dictKeys]

/-- Witness for C4: the key-membership characterization applied to the
concrete post-update state, for the statewide key. -/
theorem c4_witness :
    "statewide" ∈ dictKeys (buildAttrs (attrTable stEmptyStatus
        (.str ("2024-01-02")))) ↔
      ∃ v, ("statewide", v) ∈ attrTable stEmptyStatus
          (.str ("2024-01-02")) ∧ includePair v = true :=
  c4_truthy_or_bool_filter.1 stEmptyStatus (.str ("2024-01-02"))
    (buildAttrs (attrTable stEmptyStatus (.str ("2024-01-02")))) rfl rfl
    "statewide"

/-- Unfolding of the dictionary lookup over a head binding. -/
theorem get_entry_cons (p : PyVal × FeedEntry)
    (tl : List (PyVal × FeedEntry)) (k : PyVal) :
    get_entry (p :: tl) k =
      if p.1 = k then some p.2 else get_entry tl k := by
  by_cases h : p.1 = k
  · rw [if_pos h]
    unfold get_entry
    rw [List.find?_cons_of_pos _ (by simp [h])]
  · rw [if_neg h]
    unfold get_entry
    rw [List.find?_cons_of_neg _ (by simp [h])]

/-- C6: a lookup of an identifier bound by no entry returns None rather
than failing, and a lookup of an identifier bound by an entry of the
snapshot, whose keys are unique as in a dictionary, returns that entry. -/
theorem c6_get_entry_total :
    (∀ (entries : List (PyVal × FeedEntry)) (k : PyVal),
        (∀ p ∈ entries, p.1 ≠ k) →
        get_entry entries k = Option.none) ∧
    (∀ (entries : List (PyVal × FeedEntry)) (k : PyVal) (e : FeedEntry),
        (k, e) ∈ entries → (entryKeys entries).Nodup →
        get_entry entries k = some e) := by
  constructor
  · intro entries k h
    induction entries with
    | nil => rfl
    | cons p tl ih =>
      rw [get_entry_cons,
        if_neg (h p (List.mem_cons_self p tl))]
      exact ih fun q hq => h q (List.mem_cons_of_mem p hq)
  · intro entries k e hmem hnd
    induction entries with
    | nil => cases hmem
    | cons p tl ih =>
      rw [get_entry_cons]
      rcases List.mem_cons.mp hmem with heq | htl
      · rw [if_pos (by rw [heq.symm])]
        rw [heq.symm]
      · have hnd2 : (p.1 :: entryKeys tl).Nodup := by
          simpa [entryKeys] using hnd
        have hk : p.1 ≠ k := by
          intro hq
          exact (List.nodup_cons.mp hnd2).1
            (hq ▸ List.mem_map.mpr ⟨(k, e), htl, rfl⟩)
        rw [if_neg hk]
        exact ih htl (List.nodup_cons.mp hnd2).2

/-- Witness for C6 on a one-entry snapshot: an unknown identifier gives
None and the bound identifier gives its entry. -/
theorem c6_witness :
    get_entry [(PyVal.str ("a"), entryB)] (.str ("zzz")) = Option.none ∧
    get_entry [(PyVal.str ("a"), entryB)] (.str ("a")) = some entryB :=
  ⟨c6_get_entry_total.1 [(PyVal.str ("a"), entryB)] (.str ("zzz"))
      (by decide),
   c6_get_entry_total.2 [(PyVal.str ("a"), entryB)] (.str ("a")) entryB
      (by decide) (by decide)⟩

end VICEmergency
